import Mathlib

/-!
Shallow embedding of `src/lib/OutgoingStreamTrack.js` (media-server-node).

The JavaScript class `OutgoingStreamTrack` is modelled as a state record;
every mutating method becomes a function from the state to a pair of the
new state and the list of externally observable effects it performs, in
the order the JavaScript statements execute them.  Transponders
(forwarding links) are identified by the natural number drawn from a
fresh-id counter when `attachTo` constructs them; calls the track makes
into a transponder (`stop`, `mute`, `setIncomingTrack`, `once`, `off`)
and events the track emits on its own emitter (`muted`, `stopped`) are
recorded as effects.

The source file misspells two field writes and the embedding reproduces
both faithfully:
  * the `onTransponderStopped` handler writes `this.transpoder = null`
    (line 46), so the real `transponder` field is left untouched;
  * `detach` writes `this.transport = null` (line 206) instead of
    clearing `this.transponder`.
A JavaScript property access on `null`/`undefined` throws `TypeError`;
fallible reads (`getStats`, `getSSRCs` after `stop` cleared
`this.source`) are therefore modelled with `Option`, `none` standing
for the thrown exception.
-/

/-- `source.bitrate` is a native accumulator; the only operation the file
uses is `GetInstant()`, modelled as a stored value. -/
structure BitrateAcumulator where
  GetInstant : Nat
deriving DecidableEq, Repr

/-- One outgoing RTP source (`this.source.media` / `.rtx` / `.fec`):
the counter fields read by `getStatsFromOutgoingSource`. -/
structure OutgoingSource where
  numPackets : Nat
  numRTCPPackets : Nat
  totalBytes : Nat
  totalRTCPBytes : Nat
  bitrate : BitrateAcumulator
deriving DecidableEq, Repr

/-- The stats record built by `getStatsFromOutgoingSource`. -/
structure OutgoingSourceStats where
  numPackets : Nat
  numRTCPPackets : Nat
  totalBytes : Nat
  totalRTCPBytes : Nat
  bitrate : Nat
deriving DecidableEq, Repr

/-- The triple of sources held in `this.source`; a role may be absent
(`undefined` in JavaScript). -/
structure SourceTriple where
  media : Option OutgoingSource
  rtx : Option OutgoingSource
  fec : Option OutgoingSource
deriving DecidableEq, Repr

/-- `getStatsFromOutgoingSource(source)` (lines 15-24).  Reading a field
of an absent source throws, hence `none` on `none`; otherwise the five
fields are copied, the bitrate being `source.bitrate.GetInstant()*8`. -/
def getStatsFromOutgoingSource : Option OutgoingSource → Option OutgoingSourceStats
  | none => none
  | some source => some
      { numPackets := source.numPackets
        numRTCPPackets := source.numRTCPPackets
        totalBytes := source.totalBytes
        totalRTCPBytes := source.totalRTCPBytes
        bitrate := source.bitrate.GetInstant * 8 }

/-- The result object of `getStats()` when it does not throw. -/
structure TrackStats where
  media : OutgoingSourceStats
  rtx : OutgoingSourceStats
  fec : OutgoingSourceStats
deriving DecidableEq, Repr

/-- Observable effects of the track's methods: calls into a transponder
(identified by its id) and events emitted on the track's own emitter. -/
inductive Effect where
  | tStop (tid : Nat)
  | tMute (tid : Nat) (b : Bool)
  | tSetIncomingTrack (tid : Nat) (src : Nat)
  | tOnceStopped (tid : Nat)
  | tOffStopped (tid : Nat)
  | emitMuted (b : Bool)
  | emitStopped
deriving DecidableEq, Repr

/-- State of one `OutgoingStreamTrack` object.  `transponder` is the
real link field; `transpoder` and `transport` are the two misspelled
fields the source writes to (they exist on the JavaScript object once
written).  `subscribedTo` records on which transponder the
`onTransponderStopped` once-listener is currently installed, and
`nextId` draws fresh transponder ids. -/
structure OutgoingStreamTrack where
  sender : Bool
  source : Option SourceTriple
  muted : Bool
  transponder : Option Nat
  transpoder : Option Nat
  transport : Option Nat
  subscribedTo : Option Nat
  nextId : Nat
deriving DecidableEq, Repr

namespace OutgoingStreamTrack

/-- The constructor (lines 31-60): stores the references, `muted = false`,
no transponder. -/
def mkTrack (source : SourceTriple) : OutgoingStreamTrack :=
  { sender := true
    source := some source
    muted := false
    transponder := none
    transpoder := none
    transport := none
    subscribedTo := none
    nextId := 0 }

/-- `getTransponder()` (lines 213-216): returns `this.transponder`. -/
def getTransponder (t : OutgoingStreamTrack) : Option Nat :=
  t.transponder

/-- `isMuted()` (lines 126-129). -/
def isMuted (t : OutgoingStreamTrack) : Bool :=
  t.muted

/-- `getStats()` (lines 98-106): dereferences `this.source` and builds
stats for each of the three roles; any absent reference on the way makes
the call throw (`none`). -/
def getStats (t : OutgoingStreamTrack) : Option TrackStats :=
  match t.source with
  | none => none
  | some s =>
      match getStatsFromOutgoingSource s.media, getStatsFromOutgoingSource s.rtx,
            getStatsFromOutgoingSource s.fec with
      | some m, some r, some f => some { media := m, rtx := r, fec := f }
      | _, _, _ => none

/-- `getSSRCs()` (lines 112-120): returns the three source references
themselves; throws (`none`) when `this.source` was cleared. -/
def getSSRCs (t : OutgoingStreamTrack) :
    Option (Option OutgoingSource × Option OutgoingSource × Option OutgoingSource) :=
  t.source.map fun s => (s.media, s.rtx, s.fec)

/-- The `onTransponderStopped` listener (lines 44-47): writes the
misspelled field `this.transpoder`, leaving `this.transponder` as is. -/
def onTransponderStopped (t : OutgoingStreamTrack) : OutgoingStreamTrack :=
  { t with transpoder := none }

/-- `detach()` (lines 192-207): if no transponder, do nothing; otherwise
remove the stopped-listener, call `stop()` on the transponder and write
the misspelled field `this.transport` (so `this.transponder` keeps the
stale reference). -/
def detach (t : OutgoingStreamTrack) : OutgoingStreamTrack × List Effect :=
  match t.transponder with
  | none => (t, [])
  | some tid =>
      ({ t with
          subscribedTo := if t.subscribedTo = some tid then none else t.subscribedTo
          transport := none },
       [Effect.tOffStopped tid, Effect.tStop tid])

/-- `attachTo(incomingStreamTrack)` (lines 162-186): detach first, build
a fresh transponder, propagate the mute flag when set, bind the incoming
track, install the once stopped-listener, return the transponder. -/
def attachTo (t : OutgoingStreamTrack) (incoming : Nat) :
    OutgoingStreamTrack × List Effect × Nat :=
  let d := detach t
  let tid := d.1.nextId
  let t2 : OutgoingStreamTrack :=
    { d.1 with transponder := some tid, nextId := d.1.nextId + 1, subscribedTo := some tid }
  let muteEff : List Effect := if t2.muted then [Effect.tMute tid true] else []
  (t2,
   d.2 ++ muteEff ++ [Effect.tSetIncomingTrack tid incoming, Effect.tOnceStopped tid],
   tid)

/-- `mute(muting)` (lines 136-154): always forward to the transponder
when present, then update the flag and emit `muted` only on change. -/
def mute (t : OutgoingStreamTrack) (muting : Bool) : OutgoingStreamTrack × List Effect :=
  let fwd : List Effect :=
    match t.transponder with
    | some tid => [Effect.tMute tid muting]
    | none => []
  if t.muted ≠ muting then
    ({ t with muted := muting }, fwd ++ [Effect.emitMuted muting])
  else
    (t, fwd)

/-- `stop()` (lines 263-282): return at once when `this.sender` is
already cleared; otherwise detach, emit `stopped`, clear `this.source`
and `this.sender`. -/
def stop (t : OutgoingStreamTrack) : OutgoingStreamTrack × List Effect :=
  if t.sender = false then (t, [])
  else
    let d := detach t
    ({ d.1 with source := none, sender := false }, d.2 ++ [Effect.emitStopped])

/-- Autonomous termination of the current link: the transponder fires its
one-shot `stopped` event; the once-installed `onTransponderStopped`
listener runs when it is still subscribed on that transponder, and the
once-subscription is consumed. -/
def linkSelfTerminate (t : OutgoingStreamTrack) : OutgoingStreamTrack × List Effect :=
  match t.transponder, t.subscribedTo with
  | some tid, some sid =>
      if tid = sid then (onTransponderStopped { t with subscribedTo := none }, [])
      else (t, [])
  | _, _ => (t, [])

end OutgoingStreamTrack

/-- A public operation on the track (plus delivery of an autonomous link
termination event). -/
inductive Op where
  | attachTo (src : Nat)
  | detach
  | mute (b : Bool)
  | stop
  | linkTerm
deriving DecidableEq, Repr

namespace OutgoingStreamTrack

/-- One step: apply an operation, collect its effects. -/
def step (t : OutgoingStreamTrack) : Op → OutgoingStreamTrack × List Effect
  | Op.attachTo src => ((attachTo t src).1, (attachTo t src).2.1)
  | Op.detach => detach t
  | Op.mute b => mute t b
  | Op.stop => stop t
  | Op.linkTerm => linkSelfTerminate t

/-- Run a sequence of operations, concatenating the effect traces. -/
def run (t : OutgoingStreamTrack) : List Op → OutgoingStreamTrack × List Effect
  | [] => (t, [])
  | op :: ops =>
      let s := step t op
      let r := run s.1 ops
      (r.1, s.2 ++ r.2)

end OutgoingStreamTrack

/-- Recognise a `muted` emission in a trace. -/
def isEmitMuted : Effect → Bool
  | Effect.emitMuted _ => true
  | _ => false

/-- Recognise a `stopped` emission in a trace. -/
def isEmitStopped : Effect → Bool
  | Effect.emitStopped => true
  | _ => false

/-- A concrete source with the counters of the spec's round-trip example. -/
def exSource : OutgoingSource :=
  { numPackets := 100
    numRTCPPackets := 5
    totalBytes := 15000
    totalRTCPBytes := 400
    bitrate := { GetInstant := 64000 } }

/-- A triple with all three roles present. -/
def exTriple : SourceTriple :=
  { media := some exSource, rtx := some exSource, fec := some exSource }

/-- Recognise a mute call forwarded to a transponder. -/
def isTMute : Effect → Bool
  | Effect.tMute _ _ => true
  | _ => false

open OutgoingStreamTrack

/-- Claim C1: the claim says `detach()` clears the track's link
reference so that `getTransponder()` returns none.  The code instead
writes the misspelled field `this.transport` (line 206), so after
`attachTo` followed by `detach` the stale link is still returned:
evaluation of the code at the failing input. -/
theorem c1_detach_leaves_stale_link :
    getTransponder (run (mkTrack exTriple) [Op.attachTo 0, Op.detach]).1 = some 0 := by
  decide

/-- Claim C2: the claim says the track never invokes `stop()` more than
once on any link it created.  Because `detach()` fails to clear
`this.transponder`, the sequence `attachTo; detach; detach` calls
`stop()` twice on the first (and only) link: evaluation of the code at
the failing input. -/
theorem c2_stop_called_twice_on_first_link :
    ((run (mkTrack exTriple) [Op.attachTo 0, Op.detach, Op.detach]).2.count
      (Effect.tStop 0)) = 2 := by
  decide

/-- Claim C3 counterexample: on a stopped track (first op `stop`),
`mute true` is not a silent no-op — it flips the muted flag and emits
the `muted` event, because `mute` has no terminal-state guard. -/
theorem c3_mute_after_stop_mutates :
    (run (mkTrack exTriple) [Op.stop, Op.mute true]).1.muted = true ∧
    Effect.emitMuted true ∈ (run (mkTrack exTriple) [Op.stop, Op.mute true]).2 := by
  decide

/-- Claim C3 amended: only `stop()` itself is guarded by the cleared
`sender`: a second `stop()` is a silent no-op, while `mute b` with `b`
different from the current flag on a stopped track still updates the
flag and emits the `muted` notification. -/
theorem c3_only_stop_is_guarded (t : OutgoingStreamTrack) (b : Bool)
    (hs : t.sender = false) (hb : b ≠ t.muted) :
    stop t = (t, []) ∧
    (mute t b).1.muted = b ∧ Effect.emitMuted b ∈ (mute t b).2 := by
  have hb' : t.muted ≠ b := fun h => hb h.symm
  refine ⟨by simp [stop, hs], ?_, ?_⟩ <;>
    cases ht : t.transponder <;> simp [mute, ht, hb']

/-- Claim C3 amended, witness at a concrete stopped track. -/
theorem c3_only_stop_is_guarded_witness :
    stop (⟨false, none, false, none, none, none, none, 0⟩ : OutgoingStreamTrack) =
      ((⟨false, none, false, none, none, none, none, 0⟩ : OutgoingStreamTrack), []) ∧
    (mute (⟨false, none, false, none, none, none, none, 0⟩ : OutgoingStreamTrack)
        true).1.muted = true ∧
    Effect.emitMuted true ∈
      (mute (⟨false, none, false, none, none, none, none, 0⟩ : OutgoingStreamTrack)
        true).2 :=
  c3_only_stop_is_guarded _ true rfl (by decide)

/-- Claim C4: the claim says the handler installed by `attachTo` clears
the link reference when the link terminates on its own.  The handler
writes the misspelled field `this.transpoder` (line 46), so after
`attachTo` followed by autonomous link termination `getTransponder()`
still returns the dead link: evaluation of the code at the failing
input. -/
theorem c4_self_termination_leaves_stale_link :
    getTransponder (run (mkTrack exTriple) [Op.attachTo 0, Op.linkTerm]).1 = some 0 := by
  decide

/-- Claim C5: on a live track, `stop()` emits `stopped` exactly once and
a second `stop()` returns the state unchanged with no effects (no event,
no mutation, no error). -/
theorem c5_stop_idempotent (t : OutgoingStreamTrack) (h : t.sender = true) :
    (stop t).2.countP (fun e => isEmitStopped e) = 1 ∧
    stop (stop t).1 = ((stop t).1, []) := by
  cases ht : t.transponder <;>
    simp [stop, detach, h, ht, isEmitStopped]

/-- Claim C5, witness at a freshly constructed track. -/
theorem c5_stop_idempotent_witness :
    (stop (mkTrack exTriple)).2.countP (fun e => isEmitStopped e) = 1 ∧
    stop (stop (mkTrack exTriple)).1 = ((stop (mkTrack exTriple)).1, []) :=
  c5_stop_idempotent (mkTrack exTriple) rfl

/-- Claim C6: `mute b` forwards exactly one mute call, to the current
link when one exists (even when the flag is unchanged); the resulting
flag is `b`; the `muted` event is emitted exactly when `b` differs from
the current flag; and two consecutive `mute true` calls emit exactly one
`muted` notification when the track starts unmuted (and none when it was
already muted, which the claim's own `mute(currentValue)` clause
mandates). -/
theorem c6_mute_contract (t : OutgoingStreamTrack) (b : Bool) :
    (mute t b).2.filter isTMute = (t.transponder.map fun tid => Effect.tMute tid b).toList ∧
    (mute t b).1.muted = b ∧
    (mute t b).2.countP (fun e => isEmitMuted e) = (if t.muted = b then 0 else 1) ∧
    ((mute t true).2 ++ (mute (mute t true).1 true).2).countP (fun e => isEmitMuted e)
      = (if t.muted = false then 1 else 0) := by
  refine ⟨?_, ?_, ?_, ?_⟩
  · by_cases hmb : t.muted = b <;> cases ht : t.transponder <;>
      simp [mute, ht, hmb, isTMute]
  · by_cases hmb : t.muted = b <;> cases ht : t.transponder <;>
      simp [mute, ht, hmb]
  · by_cases hmb : t.muted = b <;> cases ht : t.transponder <;>
      simp [mute, ht, hmb, isEmitMuted]
  · by_cases hm : t.muted = true <;> cases ht : t.transponder <;>
      simp [mute, ht, hm, isEmitMuted]

/-- Claim C7: when the track is muted, `attachTo` propagates
`mute true` to the newly created link (the returned transponder id)
before it returns, and that link is stored as the current one. -/
theorem c7_attach_propagates_mute (t : OutgoingStreamTrack) (src : Nat)
    (h : t.muted = true) :
    Effect.tMute (attachTo t src).2.2 true ∈ (attachTo t src).2.1 ∧
    (attachTo t src).1.transponder = some (attachTo t src).2.2 := by
  cases ht : t.transponder <;> simp [attachTo, detach, ht, h]

/-- Claim C7, witness at a concrete muted track. -/
theorem c7_attach_propagates_mute_witness :
    Effect.tMute (attachTo (run (mkTrack exTriple) [Op.mute true]).1 5).2.2 true ∈
      (attachTo (run (mkTrack exTriple) [Op.mute true]).1 5).2.1 ∧
    (attachTo (run (mkTrack exTriple) [Op.mute true]).1 5).1.transponder =
      some (attachTo (run (mkTrack exTriple) [Op.mute true]).1 5).2.2 :=
  c7_attach_propagates_mute _ 5 (by decide)

/-- Claim C8 counterexample: on a track whose `rtx` and `fec` roles are
absent, `getStats()` does not succeed with absent entries — it throws
(dereference of the absent source inside `getStatsFromOutgoingSource`),
modelled as `none`. -/
theorem c8_getStats_throws_on_absent_role :
    getStats (mkTrack { media := some exSource, rtx := none, fec := none }) = none := by
  decide

/-- Claim C8 amended: `getStats()` succeeds exactly when all three roles
of the SourceTriple are present; any absent role makes the call throw
instead of producing an absent entry for that role. -/
theorem c8_getStats_total_iff_all_roles (s : SourceTriple) :
    (getStats (mkTrack s)).isSome = (s.media.isSome && s.rtx.isSome && s.fec.isSome) := by
  rcases s with ⟨_ | m, _ | r, _ | f⟩ <;> rfl

/-- Claim C9 counterexample: with the media source reporting
numPackets=100, numRTCPPackets=5, totalBytes=15000, totalRTCPBytes=400
and the bitrate accumulator reporting 64000, `getStats().media.bitrate`
is not 64000 (the code multiplies the accumulator reading by 8). -/
theorem c9_bitrate_not_copied_verbatim :
    (getStats (mkTrack exTriple)).map TrackStats.media ≠
      some { numPackets := 100, numRTCPPackets := 5, totalBytes := 15000,
             totalRTCPBytes := 400, bitrate := 64000 } := by
  decide

/-- Claim C9 amended: the four counter fields are copied verbatim from
the source, while the bitrate field is the accumulator's instantaneous
reading times 8 (bytes/s to bits/s); on the example source reporting
64000 the media entry is therefore
{100, 5, 15000, 400, 512000}. -/
theorem c9_stats_fields (source : OutgoingSource) :
    getStatsFromOutgoingSource (some source) = some
      { numPackets := source.numPackets
        numRTCPPackets := source.numRTCPPackets
        totalBytes := source.totalBytes
        totalRTCPBytes := source.totalRTCPBytes
        bitrate := source.bitrate.GetInstant * 8 } ∧
    (getStats (mkTrack exTriple)).map TrackStats.media = some
      { numPackets := 100, numRTCPPackets := 5, totalBytes := 15000,
        totalRTCPBytes := 400, bitrate := 512000 } :=
  ⟨rfl, by decide⟩

/-- Claim C10: after `stop()` on a live track, `getStats()` and
`getSSRCs()` throw (both dereference the `source` reference that
`stop()` cleared), modelled as returning `none`. -/
theorem c10_queries_throw_after_stop (t : OutgoingStreamTrack) (h : t.sender = true) :
    getStats (stop t).1 = none ∧ getSSRCs (stop t).1 = none := by
  cases ht : t.transponder <;>
    simp [stop, detach, h, ht, getStats, getSSRCs]

/-- Claim C10, witness at a freshly constructed track. -/
theorem c10_queries_throw_after_stop_witness :
    getStats (stop (mkTrack exTriple)).1 = none ∧
    getSSRCs (stop (mkTrack exTriple)).1 = none :=
  c10_queries_throw_after_stop (mkTrack exTriple) rfl
